import Mathlib

set_option maxHeartbeats 1000000
set_option linter.unusedSectionVars false
set_option linter.unusedVariables false

/-!
Shallow embedding of the particle-system demo in src/workshop01/workshop01.cpp.

Float arithmetic of the source is modelled exactly over an ordered field
(instantiated at ℝ in the claim theorems); the xorshift32 generator state is
a natural number reduced mod 2 ^ 32 exactly where the C code wraps; GL object
handles are naturals with 0 as the null handle; file modification times are
integers; the filesystem seen by stat is a function from path to optional
mtime.
-/

/-- Xorshift32 step, exactly the body of random_in_range in the source:
shifts 13, 17, 5 applied in that order on a 32-bit state. -/
def xorshiftStep (s : Nat) : Nat :=
  let s1 := s ^^^ ((s <<< 13) % 4294967296)
  let s2 := s1 ^^^ (s1 >>> 17)
  s2 ^^^ ((s2 <<< 5) % 4294967296)

/-- Iterated xorshift32: xorshiftIter k s is the state after k draws from state s. -/
def xorshiftIter : Nat → Nat → Nat
  | 0, s => s
  | k + 1, s => xorshiftIter k (xorshiftStep s)

section ParticleModel

variable {α : Type} [LinearOrderedField α] [FloorRing α]

/-- Constant two_pi of the source, the float literal 6.283185308f read exactly. -/
def two_pi : α := 6283185308 / 1000000000

/-- Truncation toward zero, as used by the C library fmod. -/
def rtrunc (x : α) : ℤ := if 0 ≤ x then ⌊x⌋ else ⌈x⌉

/-- C library fmod over an exact field: fmod x y = x - y * trunc (x / y). -/
def fmod (x y : α) : α := x - y * (rtrunc (x / y) : α)

/-- Mirror of struct particle_data: eight floats per record. -/
structure ParticleData (α : Type) where
  position : α × α
  velocity : α × α
  angle : α
  spin : α
  size : α
  creation_time : α

/-- Value-initialised particle record, as in the zero initialiser of the
global particles array. -/
def zeroParticle : ParticleData α := ⟨(0, 0), (0, 0), 0, 0, 0, 0⟩

/-- Constant num_particles = 1000 of the source. -/
def num_particles : Nat := 1000

/-- Mirror of random_in_range: advance the xorshift state, then return
min + (max - min) * (state / 2 ^ 32) together with the new state. -/
def random_in_range (mn mx : α) (s : Nat) : α × Nat :=
  let s1 := xorshiftStep s
  (mn + (mx - mn) * ((s1 : α) / 4294967296), s1)

/-- One particle as written by the emission loop body of generate_particles:
five draws in source order (velocity.x, velocity.y, angle, spin, size
exponent), position fixed at the origin, creation_time taken from the clock.
The exp2 argument abstracts the C library exp2f (instantiated with the real
base-two power in the claim theorems). -/
def make_particle (exp2 : α → α) (time : α) (s : Nat) : ParticleData α × Nat :=
  let vx := random_in_range (-12) 12 s
  let vy := random_in_range 24 48 vx.2
  let ang := random_in_range 0 two_pi vy.2
  let sp := random_in_range (-5) 5 ang.2
  let u := random_in_range (-2) (1 / 2) sp.2
  (⟨(0, 0), (vx.1, vy.1), ang.1, sp.1, exp2 u.1, time⟩, u.2)

/-- Emitter state: the particle store, write cursor, fractional accumulator
and the (function-local static) rng state of random_in_range. -/
structure EmitState (α : Type) where
  store : Fin num_particles → ParticleData α
  next_particle_index : Nat
  accumulator : α
  rng : Nat

/-- Index into the particle ring. -/
def wrapIndex (n : Nat) : Fin num_particles :=
  ⟨n % num_particles, Nat.mod_lt n (by norm_num [num_particles])⟩

/-- Body of one iteration of the emission loop: write the new particle at
the cursor, advance the cursor mod num_particles, advance the rng state. -/
def emitStep (exp2 : α → α) (time : α) (st : EmitState α) : EmitState α :=
  { store := Function.update st.store (wrapIndex st.next_particle_index)
      (make_particle exp2 time st.rng).1
    next_particle_index := (st.next_particle_index + 1) % num_particles
    accumulator := st.accumulator
    rng := (make_particle exp2 time st.rng).2 }

/-- Emission loop of generate_particles: write count particles at the cursor,
advancing cursor and rng state; the list of written records is returned as
an observation log (head = first emitted). -/
def generate_emit (exp2 : α → α) (time : α) :
    Nat → EmitState α → EmitState α × List (ParticleData α)
  | 0, st => (st, [])
  | k + 1, st =>
    let rest := generate_emit exp2 time k (emitStep exp2 time st)
    (rest.1, (make_particle exp2 time st.rng).1 :: rest.2)

/-- Constant particles_per_second = 50 of the source. -/
def particles_per_second : α := 50

/-- Mirror of generate_particles: accumulate 50 * timestep, emit
floor (accumulator) particles, subtract that integer from the accumulator. -/
def generate_particles (exp2 : α → α) (timestep time : α) (st : EmitState α) :
    EmitState α × List (ParticleData α) :=
  let acc1 := st.accumulator + particles_per_second * timestep
  let n : ℤ := ⌊acc1⌋
  generate_emit exp2 time n.toNat { st with accumulator := acc1 - (n : α) }

/-- Constant gravity = -40 of the source. -/
def gravity : α := -40

/-- Body of the loop in simulate_particles for one record: position first
(with the pre-update velocity), then velocity.y, then the fmod angle wrap. -/
def simStep (timestep : α) (p : ParticleData α) : ParticleData α :=
  { position := (p.position.1 + timestep * p.velocity.1,
                 p.position.2 + timestep * p.velocity.2)
    velocity := (p.velocity.1, p.velocity.2 + timestep * gravity)
    angle := fmod (p.angle + timestep * p.spin) two_pi
    spin := p.spin
    size := p.size
    creation_time := p.creation_time }

/-- Mirror of simulate_particles: every slot is stepped, with no early-out. -/
def simulate_particles (timestep : α) (store : Fin num_particles → ParticleData α) :
    Fin num_particles → ParticleData α :=
  fun i => simStep timestep (store i)

/-- Effect of simulate_particles on the emitter state: only the store moves. -/
def integrate_state (timestep : α) (st : EmitState α) : EmitState α :=
  { st with store := simulate_particles timestep st.store }

/-- Frame loop as it affects the particle system: each frame advances the
clock by the timestep, emits, then integrates.  Returns the final state and
the concatenated emission log. -/
def runFrames (exp2 : α → α) :
    List α → α → EmitState α → EmitState α × List (ParticleData α)
  | [], _, st => (st, [])
  | timestep :: rest, t, st =>
    let t1 := t + timestep
    let g := generate_particles exp2 timestep t1 st
    let r := runFrames exp2 rest t1 (integrate_state timestep g.1)
    (r.1, g.2 ++ r.2)

/-- Startup state: zeroed store, cursor 0, accumulator 0, seed 0xf2eec0de. -/
def initState : EmitState α := ⟨fun _ => zeroParticle, 0, 0, 0xf2eec0de⟩

end ParticleModel

/-- Real base-two exponential, the exact meaning of the exp2 call in the
source. -/
noncomputable def exp2R : ℝ → ℝ := fun u => (2 : ℝ) ^ u

/-- Emitter state agreeing with the startup state on the accumulator and the
seed but with a different store and cursor, for the determinism witness. -/
noncomputable def altState : EmitState ℝ :=
  { store := fun _ => ⟨(1, 2), (3, 4), 5, 6, 7, 8⟩
    next_particle_index := 37
    accumulator := 0
    rng := 0xf2eec0de }

/-- State addressed by one load_shaders call: the program handle and the two
stored mtimes behind the three pointer arguments. -/
structure ShaderProgState where
  program : Nat
  vertex_mtime : Int
  fragment_mtime : Int

/-- Environment of one load_shaders call: for each stage whether the source
file resolves (and to which mtime) and whether it compiles; the handle
glCreateShader and glCreateProgram would return; and whether linking
succeeds. -/
structure LoadEnv where
  vertex_file : Option Int
  fragment_file : Option Int
  vertex_compiles : Bool
  fragment_compiles : Bool
  vertex_handle : Nat
  fragment_handle : Nat
  new_program : Nat
  links : Bool

/-- Mirror of try_load_shader: a missing file leaves the mtime slot untouched
and returns the null handle 0; a found file records its mtime into the slot
first, then returns 0 exactly when compilation fails. -/
def try_load_shader (file : Option Int) (compiles : Bool) (handle : Nat)
    (mtime_slot : Int) : Nat × Int :=
  match file with
  | none => (0, mtime_slot)
  | some m => if compiles then (handle, m) else (0, m)

/-- Mirror of load_shaders.  Returns the new pointed-to state together with
the list of program handles passed to glDeleteProgram during the call. -/
def load_shaders (env : LoadEnv) (st : ShaderProgState) : ShaderProgState × List Nat :=
  let vres := try_load_shader env.vertex_file env.vertex_compiles env.vertex_handle
      st.vertex_mtime
  let fres := try_load_shader env.fragment_file env.fragment_compiles env.fragment_handle
      st.fragment_mtime
  if vres.1 = 0 ∨ fres.1 = 0 then
    ({ program := st.program, vertex_mtime := vres.2, fragment_mtime := fres.2 }, [])
  else if env.links then
    ({ program := env.new_program, vertex_mtime := vres.2, fragment_mtime := fres.2 },
      [st.program])
  else
    ({ program := st.program, vertex_mtime := vres.2, fragment_mtime := fres.2 },
      [env.new_program])

/-- Full success of one load_shaders call: both files found, both stages
compile, and the program links. -/
def load_success (env : LoadEnv) : Prop :=
  env.vertex_file.isSome = true ∧ env.vertex_compiles = true ∧
  env.fragment_file.isSome = true ∧ env.fragment_compiles = true ∧ env.links = true

instance (env : LoadEnv) : Decidable (load_success env) := by
  unfold load_success
  infer_instance

/-- Two-path file search of the source: stat the name in the working
directory, else under the parent directory. -/
def stat_mtime (fsys : String → Option Int) (filename : String) : Option Int :=
  match fsys filename with
  | some m => some m
  | none => fsys ("../" ++ filename)

/-- Mirror of check_shader_changed: a file missing at both paths is treated
as unchanged; otherwise changed means the on-disk mtime is strictly greater
than the stored one. -/
def check_shader_changed (fsys : String → Option Int) (filename : String)
    (prev_mtime : Int) : Bool :=
  match stat_mtime fsys filename with
  | none => false
  | some m => decide (prev_mtime < m)

/-- Stored load-time mtimes of the four shader source files. -/
structure ShaderFileTimes where
  vertex_shader_mtime : Int
  fragment_shader_mtime : Int
  quad_vertex_shader_mtime : Int
  raytrace_shader_mtime : Int

/-- Mirror of reload_shaders_if_changed: whether load_all_shaders is invoked. -/
def reload_shaders_if_changed (fsys : String → Option Int) (st : ShaderFileTimes) : Bool :=
  check_shader_changed fsys ("vertex_shader.glsl") st.vertex_shader_mtime ||
  check_shader_changed fsys ("fragment_shader.glsl") st.fragment_shader_mtime ||
  check_shader_changed fsys ("vertex_shader_quad.glsl") st.quad_vertex_shader_mtime ||
  check_shader_changed fsys ("fragment_shader_raytrace.glsl") st.raytrace_shader_mtime

/-- Gate in the main loop around the watcher: cur_time > prev_shader_load_time + 0.5. -/
def shader_check_due (cur_time prev_shader_load_time : ℚ) : Prop :=
  prev_shader_load_time + 1 / 2 < cur_time

/-- Concrete filesystem for the watcher counterexample: the fragment shader
mtime moved backwards (50), the other three match their stored value 100. -/
def fs0 : String → Option Int := fun name =>
  if name = "vertex_shader.glsl" then some 100
  else if name = "fragment_shader.glsl" then some 50
  else if name = "vertex_shader_quad.glsl" then some 100
  else if name = "fragment_shader_raytrace.glsl" then some 100
  else none

/-- Stored mtimes for the watcher counterexample. -/
def watch0 : ShaderFileTimes := ⟨100, 100, 100, 100⟩

/-- Concrete filesystem for the failed-compile witness: the vertex shader is
present with the same mtime 5 that the failing load stored. -/
def fs1 : String → Option Int := fun name =>
  if name = "vertex_shader.glsl" then some 5 else none

/-- Load environment where everything succeeds, for the loader witness. -/
def envOk : LoadEnv := ⟨some 1, some 2, true, true, 7, 8, 9, true⟩

/-- Load environment where the vertex stage is found (mtime 5) but fails to
compile, for the failed-compile witness. -/
def envBadCompile : LoadEnv := ⟨some 5, some 6, false, true, 7, 8, 9, true⟩

/-- Program state before the witnessed loader calls. -/
def progState0 : ShaderProgState := ⟨3, 0, 0⟩

/-! ### Helper lemmas: random source -/

theorem xorshiftStep_lt (s : Nat) (hs : s < 4294967296) : xorshiftStep s < 4294967296 := by
  have hx : ∀ a b : Nat, a < 4294967296 → a ^^^ (b % 4294967296) < 4294967296 := by
    intro a b ha
    have h32 : (4294967296 : Nat) = 2 ^ 32 := by norm_num
    rw [h32] at ha ⊢
    exact Nat.xor_lt_two_pow ha (h32 ▸ Nat.mod_lt _ (by norm_num))
  have hr : ∀ a k : Nat, a < 4294967296 → a ^^^ (a >>> k) < 4294967296 := by
    intro a k ha
    have h32 : (4294967296 : Nat) = 2 ^ 32 := by norm_num
    rw [h32] at ha ⊢
    refine Nat.xor_lt_two_pow ha (Nat.lt_of_le_of_lt ?_ ha)
    rw [Nat.shiftRight_eq_div_pow]
    exact Nat.div_le_self _ _
  exact hx _ _ (hr _ _ (hx _ _ hs))

theorem xorshiftIter_succ (k s : Nat) :
    xorshiftIter (k + 1) s = xorshiftIter k (xorshiftStep s) := rfl

section FieldLemmas

variable {α : Type} [LinearOrderedField α] [FloorRing α]

theorem two_pi_pos : (0 : α) < two_pi := by norm_num [two_pi]

theorem random_in_range_fst (mn mx : α) (s : Nat) :
    (random_in_range mn mx s).1 = mn + (mx - mn) * ((xorshiftStep s : α) / 4294967296) := rfl

theorem random_in_range_snd (mn mx : α) (s : Nat) :
    (random_in_range mn mx s).2 = xorshiftStep s := rfl

theorem unit_draw_bounds (s : Nat) (hs : s < 4294967296) :
    0 ≤ ((xorshiftStep s : α) / 4294967296) ∧ ((xorshiftStep s : α) / 4294967296) < 1 := by
  constructor
  · exact div_nonneg (Nat.cast_nonneg _) (by norm_num)
  · rw [div_lt_one (by norm_num : (0 : α) < 4294967296)]
    exact_mod_cast xorshiftStep_lt s hs

theorem random_in_range_bounds (mn mx : α) (s : Nat) (hs : s < 4294967296) (h : mn < mx) :
    mn ≤ (random_in_range mn mx s).1 ∧ (random_in_range mn mx s).1 < mx := by
  obtain ⟨h0, h1⟩ := unit_draw_bounds (α := α) s hs
  rw [random_in_range_fst]
  constructor
  · have := mul_nonneg (sub_nonneg.mpr h.le) h0
    linarith
  · have := (mul_lt_mul_of_pos_left h1 (sub_pos.mpr h))
    rw [mul_one] at this
    linarith

/-! ### Helper lemmas: fmod -/

theorem fmod_eq_fract (x y : α) (hq : 0 ≤ x / y) (hy : y ≠ 0) :
    fmod x y = y * Int.fract (x / y) := by
  rw [fmod, rtrunc, if_pos hq, Int.fract, mul_sub, mul_comm y (x / y), div_mul_cancel₀ _ hy]

theorem abs_fmod_lt (x y : α) (hy : 0 < y) : |fmod x y| < y := by
  rcases le_or_lt 0 (x / y) with hq | hq
  · rw [fmod_eq_fract x y hq hy.ne']
    rw [abs_of_nonneg (mul_nonneg hy.le (Int.fract_nonneg _))]
    calc y * Int.fract (x / y) < y * 1 := (mul_lt_mul_left hy).mpr (Int.fract_lt_one _)
      _ = y := mul_one y
  · have hceil : rtrunc (x / y) = ⌈x / y⌉ := if_neg (not_le.mpr hq)
    have heq : fmod x y = y * (x / y - (⌈x / y⌉ : α)) := by
      rw [fmod, hceil, mul_sub, mul_comm y (x / y), div_mul_cancel₀ _ hy.ne']
    have h1 : x / y - (⌈x / y⌉ : α) ≤ 0 := sub_nonpos.mpr (Int.le_ceil _)
    have h2 : -1 < x / y - (⌈x / y⌉ : α) := by
      have := Int.ceil_lt_add_one (x / y)
      linarith
    have h3 : y * (x / y - (⌈x / y⌉ : α)) ≤ 0 := by
      have := mul_le_mul_of_nonneg_left h1 hy.le
      linarith [mul_zero y]
    rw [heq, abs_of_nonpos h3]
    have h4 : -(y * (x / y - (⌈x / y⌉ : α))) = y * ((⌈x / y⌉ : α) - x / y) := by ring
    rw [h4]
    calc y * ((⌈x / y⌉ : α) - x / y) < y * 1 := by
          apply (mul_lt_mul_left hy).mpr
          linarith
      _ = y := mul_one y

theorem fmod_eq_self (x y : α) (h0 : 0 ≤ x) (hxy : x < y) : fmod x y = x := by
  have hy : 0 < y := lt_of_le_of_lt h0 hxy
  have hq0 : 0 ≤ x / y := div_nonneg h0 hy.le
  have hq1 : x / y < 1 := (div_lt_one hy).mpr hxy
  have hfl : ⌊x / y⌋ = 0 := Int.floor_eq_zero_iff.mpr ⟨hq0, hq1⟩
  rw [fmod, rtrunc, if_pos hq0, hfl]
  simp

theorem fmod_zero_left (y : α) : fmod 0 y = 0 := by
  simp [fmod, rtrunc]

end FieldLemmas

/-! ### Helper lemmas: emitter -/

section EmitterLemmas

variable {α : Type} [LinearOrderedField α] [FloorRing α]

theorem make_particle_snd (e : α → α) (t : α) (s : Nat) :
    (make_particle e t s).2 =
      xorshiftStep (xorshiftStep (xorshiftStep (xorshiftStep (xorshiftStep s)))) := rfl

theorem make_particle_rng_lt (e : α → α) (t : α) (s : Nat) (hs : s < 4294967296) :
    (make_particle e t s).2 < 4294967296 := by
  rw [make_particle_snd]
  exact xorshiftStep_lt _ (xorshiftStep_lt _ (xorshiftStep_lt _
    (xorshiftStep_lt _ (xorshiftStep_lt _ hs))))

theorem generate_emit_succ_fst (e : α → α) (t : α) (k : Nat) (st : EmitState α) :
    (generate_emit e t (k + 1) st).1 = (generate_emit e t k (emitStep e t st)).1 := rfl

theorem generate_emit_succ_log (e : α → α) (t : α) (k : Nat) (st : EmitState α) :
    (generate_emit e t (k + 1) st).2 =
      (make_particle e t st.rng).1 :: (generate_emit e t k (emitStep e t st)).2 := rfl

theorem emitStep_rng (e : α → α) (t : α) (st : EmitState α) :
    (emitStep e t st).rng = (make_particle e t st.rng).2 := rfl

theorem emitStep_acc (e : α → α) (t : α) (st : EmitState α) :
    (emitStep e t st).accumulator = st.accumulator := rfl

theorem emitStep_store (e : α → α) (t : α) (st : EmitState α) :
    (emitStep e t st).store =
      Function.update st.store (wrapIndex st.next_particle_index)
        (make_particle e t st.rng).1 := rfl

theorem generate_emit_length (e : α → α) (t : α) :
    ∀ (k : Nat) (st : EmitState α), ((generate_emit e t k st).2).length = k := by
  intro k
  induction k with
  | zero => intro st; rfl
  | succ k ih =>
    intro st
    rw [generate_emit_succ_log, List.length_cons, ih]

theorem generate_emit_acc (e : α → α) (t : α) :
    ∀ (k : Nat) (st : EmitState α),
      (generate_emit e t k st).1.accumulator = st.accumulator := by
  intro k
  induction k with
  | zero => intro st; rfl
  | succ k ih => intro st; exact ih _

theorem generate_emit_rng_lt (e : α → α) (t : α) :
    ∀ (k : Nat) (st : EmitState α), st.rng < 4294967296 →
      (generate_emit e t k st).1.rng < 4294967296 := by
  intro k
  induction k with
  | zero => intro st h; exact h
  | succ k ih =>
    intro st h
    exact ih _ (make_particle_rng_lt e t st.rng h)

theorem generate_emit_log_eq (e : α → α) (t : α) :
    ∀ (k : Nat) (s1 s2 : EmitState α), s1.rng = s2.rng →
      (generate_emit e t k s1).2 = (generate_emit e t k s2).2 ∧
      (generate_emit e t k s1).1.rng = (generate_emit e t k s2).1.rng := by
  intro k
  induction k with
  | zero => intro s1 s2 h; exact ⟨rfl, h⟩
  | succ k ih =>
    intro s1 s2 h
    have he : (emitStep e t s1).rng = (emitStep e t s2).rng := by
      rw [emitStep_rng, emitStep_rng, h]
    obtain ⟨hl, hr⟩ := ih (emitStep e t s1) (emitStep e t s2) he
    constructor
    · rw [generate_emit_succ_log, generate_emit_succ_log, h, hl]
    · rw [generate_emit_succ_fst, generate_emit_succ_fst]
      exact hr

theorem generate_emit_mem (e : α → α) (t : α) :
    ∀ (k : Nat) (st : EmitState α) (p : ParticleData α),
      p ∈ (generate_emit e t k st).2 → ∃ s, p = (make_particle e t s).1 := by
  intro k
  induction k with
  | zero => intro st p h; exact absurd h (List.not_mem_nil p)
  | succ k ih =>
    intro st p h
    rcases List.mem_cons.mp h with h | h
    · exact ⟨st.rng, h⟩
    · exact ih _ p h

theorem generate_emit_store_inv (e : α → α) (t : α) (Q : ParticleData α → Prop)
    (hQ : ∀ s, s < 4294967296 → Q (make_particle e t s).1) :
    ∀ (k : Nat) (st : EmitState α), st.rng < 4294967296 → (∀ i, Q (st.store i)) →
      ∀ i, Q ((generate_emit e t k st).1.store i) := by
  intro k
  induction k with
  | zero => intro st _ h i; exact h i
  | succ k ih =>
    intro st hrng h i
    rw [generate_emit_succ_fst]
    refine ih _ (make_particle_rng_lt e t st.rng hrng) ?_ i
    intro j
    rw [emitStep_store, Function.update_apply]
    split
    · exact hQ st.rng hrng
    · exact h j

theorem generate_emit_store_inv0 (e : α → α) (t : α) (Q : ParticleData α → Prop)
    (hQ : ∀ s, Q (make_particle e t s).1) :
    ∀ (k : Nat) (st : EmitState α), (∀ i, Q (st.store i)) →
      ∀ i, Q ((generate_emit e t k st).1.store i) := by
  intro k
  induction k with
  | zero => intro st h i; exact h i
  | succ k ih =>
    intro st h i
    rw [generate_emit_succ_fst]
    refine ih _ ?_ i
    intro j
    rw [emitStep_store, Function.update_apply]
    split
    · exact hQ st.rng
    · exact h j

end EmitterLemmas

/-! ### Helper lemmas: generate_particles and the frame loop -/

section FrameLemmas

variable {α : Type} [LinearOrderedField α] [FloorRing α]

theorem generate_particles_def (e : α → α) (Δt t : α) (st : EmitState α) :
    generate_particles e Δt t st =
      generate_emit e t (⌊st.accumulator + particles_per_second * Δt⌋).toNat
        { st with accumulator := st.accumulator + particles_per_second * Δt
            - ((⌊st.accumulator + particles_per_second * Δt⌋ : ℤ) : α) } := rfl

theorem generate_particles_length (e : α → α) (Δt t : α) (st : EmitState α) :
    ((generate_particles e Δt t st).2).length =
      (⌊st.accumulator + particles_per_second * Δt⌋).toNat := by
  rw [generate_particles_def, generate_emit_length]

theorem generate_particles_acc (e : α → α) (Δt t : α) (st : EmitState α) :
    (generate_particles e Δt t st).1.accumulator =
      Int.fract (st.accumulator + particles_per_second * Δt) := by
  rw [generate_particles_def, generate_emit_acc]
  exact Int.self_sub_floor _

theorem generate_particles_rng_lt (e : α → α) (Δt t : α) (st : EmitState α)
    (h : st.rng < 4294967296) :
    (generate_particles e Δt t st).1.rng < 4294967296 := by
  rw [generate_particles_def]
  exact generate_emit_rng_lt e t _ _ h

theorem generate_particles_log_eq (e : α → α) (Δt t : α) (s1 s2 : EmitState α)
    (ha : s1.accumulator = s2.accumulator) (hr : s1.rng = s2.rng) :
    (generate_particles e Δt t s1).2 = (generate_particles e Δt t s2).2 ∧
    (generate_particles e Δt t s1).1.accumulator
      = (generate_particles e Δt t s2).1.accumulator ∧
    (generate_particles e Δt t s1).1.rng = (generate_particles e Δt t s2).1.rng := by
  have hcount : (⌊s1.accumulator + particles_per_second * Δt⌋).toNat
      = (⌊s2.accumulator + particles_per_second * Δt⌋).toNat := by rw [ha]
  refine ⟨?_, ?_, ?_⟩
  · rw [generate_particles_def, generate_particles_def, hcount]
    refine (generate_emit_log_eq e t _ _ _ ?_).1
    exact hr
  · rw [generate_particles_acc, generate_particles_acc, ha]
  · rw [generate_particles_def, generate_particles_def, hcount]
    refine (generate_emit_log_eq e t _ _ _ ?_).2
    exact hr

theorem generate_particles_mem (e : α → α) (Δt t : α) (st : EmitState α)
    (p : ParticleData α) (h : p ∈ (generate_particles e Δt t st).2) :
    ∃ s, p = (make_particle e t s).1 := by
  rw [generate_particles_def] at h
  exact generate_emit_mem e t _ _ p h

theorem generate_particles_store_inv (e : α → α) (Δt t : α) (Q : ParticleData α → Prop)
    (hQ : ∀ s, s < 4294967296 → Q (make_particle e t s).1) (st : EmitState α)
    (hrng : st.rng < 4294967296) (h : ∀ i, Q (st.store i)) :
    ∀ i, Q ((generate_particles e Δt t st).1.store i) := by
  rw [generate_particles_def]
  exact generate_emit_store_inv e t Q hQ _ _ hrng h

theorem generate_particles_store_inv0 (e : α → α) (Δt t : α) (Q : ParticleData α → Prop)
    (hQ : ∀ s, Q (make_particle e t s).1) (st : EmitState α) (h : ∀ i, Q (st.store i)) :
    ∀ i, Q ((generate_particles e Δt t st).1.store i) := by
  rw [generate_particles_def]
  exact generate_emit_store_inv0 e t Q hQ _ _ h

theorem runFrames_cons_fst (e : α → α) (Δt : α) (rest : List α) (t : α) (st : EmitState α) :
    (runFrames e (Δt :: rest) t st).1 =
      (runFrames e rest (t + Δt)
        (integrate_state Δt (generate_particles e Δt (t + Δt) st).1)).1 := rfl

theorem runFrames_cons_log (e : α → α) (Δt : α) (rest : List α) (t : α) (st : EmitState α) :
    (runFrames e (Δt :: rest) t st).2 =
      (generate_particles e Δt (t + Δt) st).2 ++
        (runFrames e rest (t + Δt)
          (integrate_state Δt (generate_particles e Δt (t + Δt) st).1)).2 := rfl

theorem runFrames_inv (e : α → α) (P : EmitState α → Prop)
    (hgen : ∀ (Δt t : α) (st : EmitState α), P st → P (generate_particles e Δt t st).1)
    (hsim : ∀ (Δt : α) (st : EmitState α), P st → P (integrate_state Δt st)) :
    ∀ (ts : List α) (t : α) (st : EmitState α), P st → P (runFrames e ts t st).1 := by
  intro ts
  induction ts with
  | nil => intro t st h; exact h
  | cons Δt rest ih =>
    intro t st h
    rw [runFrames_cons_fst]
    exact ih _ _ (hsim Δt _ (hgen Δt (t + Δt) st h))

theorem runFrames_log_eq (e : α → α) :
    ∀ (ts : List α) (t : α) (s1 s2 : EmitState α),
      s1.accumulator = s2.accumulator → s1.rng = s2.rng →
      (runFrames e ts t s1).2 = (runFrames e ts t s2).2 := by
  intro ts
  induction ts with
  | nil => intro t s1 s2 _ _; rfl
  | cons Δt rest ih =>
    intro t s1 s2 ha hr
    obtain ⟨hl, ha2, hr2⟩ := generate_particles_log_eq e Δt (t + Δt) s1 s2 ha hr
    rw [runFrames_cons_log, runFrames_cons_log, hl]
    have hrec := ih (t + Δt)
      (integrate_state Δt (generate_particles e Δt (t + Δt) s1).1)
      (integrate_state Δt (generate_particles e Δt (t + Δt) s2).1) ha2 hr2
    rw [hrec]

theorem runFrames_mem (e : α → α) :
    ∀ (ts : List α) (t : α) (st : EmitState α) (p : ParticleData α),
      p ∈ (runFrames e ts t st).2 → ∃ t1 s, p = (make_particle e t1 s).1 := by
  intro ts
  induction ts with
  | nil => intro t st p h; exact absurd h (List.not_mem_nil p)
  | cons Δt rest ih =>
    intro t st p h
    rw [runFrames_cons_log] at h
    rcases List.mem_append.mp h with h | h
    · obtain ⟨s, hs⟩ := generate_particles_mem e Δt (t + Δt) st p h
      exact ⟨t + Δt, s, hs⟩
    · exact ih _ _ p h

end FrameLemmas

/-! ### Helper lemmas: watcher -/

theorem check_shader_changed_iff (fsys : String → Option Int) (name : String)
    (prev : Int) :
    check_shader_changed fsys name prev = true ↔
      ∃ d, stat_mtime fsys name = some d ∧ prev < d := by
  unfold check_shader_changed
  cases h : stat_mtime fsys name with
  | none => simp
  | some m => simp [h]

/-! ### Claim theorems -/

/-- C1: in load_shaders, if loading either source file, compiling either
stage, or linking fails, the pointed-to program handle is left unchanged
and is not deleted; only when everything succeeds is the old program
deleted and the handle set to the new program; hence a nonzero handle stays
nonzero across any call.  The hypotheses state the GL guarantees that
created shader and program names are nonzero and that a fresh program name
differs from the currently stored one. -/
theorem claim_C1_loader_atomic_replace (env : LoadEnv) (st : ShaderProgState)
    (hv : env.vertex_handle ≠ 0) (hf : env.fragment_handle ≠ 0)
    (hp : env.new_program ≠ 0) (hfresh : env.new_program ≠ st.program) :
    (¬ load_success env →
      (load_shaders env st).1.program = st.program ∧
      st.program ∉ (load_shaders env st).2) ∧
    (load_success env →
      (load_shaders env st).1.program = env.new_program ∧
      st.program ∈ (load_shaders env st).2) ∧
    (st.program ≠ 0 → (load_shaders env st).1.program ≠ 0) := by
  have hfresh2 : st.program ≠ env.new_program := fun h => hfresh h.symm
  obtain ⟨vf, ff, vc, fc, vh, fh, np, lk⟩ := env
  simp only [load_success] at *
  cases vf <;> cases ff <;> cases vc <;> cases fc <;> cases lk <;>
    simp_all [load_shaders, try_load_shader]

/-- C1 witness: a fully successful load installs the new program 9 and
deletes the old program 3. -/
theorem claim_C1_loader_atomic_replace_witness :
    envOk.vertex_handle ≠ 0 ∧ envOk.fragment_handle ≠ 0 ∧ envOk.new_program ≠ 0 ∧
    envOk.new_program ≠ progState0.program ∧ load_success envOk ∧
    ((load_shaders envOk progState0).1.program = envOk.new_program ∧
      progState0.program ∈ (load_shaders envOk progState0).2) :=
  ⟨by decide, by decide, by decide, by decide, by decide,
    (claim_C1_loader_atomic_replace envOk progState0 (by decide) (by decide)
      (by decide) (by decide)).2.1 (by decide)⟩

/-- C10: try_load_shader stores the found mtime before the compile check, so
after a failed vertex compile the stored vertex mtime equals the failing
mtime m and no new program was installed; since the watcher compares with
strictly-greater, any on-disk mtime d ≤ m of the vertex file no longer
reports a change. -/
theorem claim_C10_failed_compile_stores_mtime (env : LoadEnv) (st : ShaderProgState)
    (m : Int) (hfile : env.vertex_file = some m) (hcomp : env.vertex_compiles = false) :
    (load_shaders env st).1.vertex_mtime = m ∧
    (load_shaders env st).1.program = st.program ∧
    ∀ (fsys : String → Option Int) (d : Int),
      stat_mtime fsys ("vertex_shader.glsl") = some d → d ≤ m →
      check_shader_changed fsys ("vertex_shader.glsl")
        ((load_shaders env st).1.vertex_mtime) = false := by
  have hv : try_load_shader env.vertex_file env.vertex_compiles env.vertex_handle
      st.vertex_mtime = (0, m) := by
    rw [hfile, hcomp]
    rfl
  have hload : load_shaders env st =
      ({ program := st.program, vertex_mtime := m,
         fragment_mtime := (try_load_shader env.fragment_file env.fragment_compiles
           env.fragment_handle st.fragment_mtime).2 }, []) := by
    unfold load_shaders
    rw [hv]
    simp
  refine ⟨by rw [hload], by rw [hload], ?_⟩
  intro fsys d hstat hle
  rw [hload]
  unfold check_shader_changed
  rw [hstat]
  simp only [decide_eq_false_iff_not, not_lt]
  exact hle

/-- C10 witness: vertex file present with mtime 5 but failing to compile;
afterwards the stored vertex mtime is 5, the program is untouched, and a
filesystem still showing mtime 5 reports no change. -/
theorem claim_C10_failed_compile_stores_mtime_witness :
    envBadCompile.vertex_file = some 5 ∧ envBadCompile.vertex_compiles = false ∧
    stat_mtime fs1 ("vertex_shader.glsl") = some 5 ∧ (5 : Int) ≤ 5 ∧
    (load_shaders envBadCompile progState0).1.vertex_mtime = 5 ∧
    (load_shaders envBadCompile progState0).1.program = progState0.program ∧
    check_shader_changed fs1 ("vertex_shader.glsl")
      ((load_shaders envBadCompile progState0).1.vertex_mtime) = false := by
  have h := claim_C10_failed_compile_stores_mtime envBadCompile progState0 5 rfl rfl
  exact ⟨rfl, rfl, by decide, by decide, h.1, h.2.1, h.2.2 fs1 5 (by decide) (by decide)⟩

/-- C7 (amended): the watcher gate fires only with strictly more than half a
second elapsed (hence at least half a second); the file search falls back to
the parent directory; a file missing at both paths is treated as unchanged;
and the loader is invoked for both pipelines exactly when some shader file
resolves to an on-disk mtime strictly greater than its stored mtime. -/
theorem claim_C7_watcher_behaviour :
    (∀ cur prev : ℚ, shader_check_due cur prev → 1 / 2 ≤ cur - prev) ∧
    (∀ (fsys : String → Option Int) (name : String), fsys name = none →
      stat_mtime fsys name = fsys ("../" ++ name)) ∧
    (∀ (fsys : String → Option Int) (name : String) (prev : Int),
      stat_mtime fsys name = none → check_shader_changed fsys name prev = false) ∧
    (∀ (fsys : String → Option Int) (st : ShaderFileTimes),
      reload_shaders_if_changed fsys st = true ↔
        ((∃ d, stat_mtime fsys ("vertex_shader.glsl") = some d ∧
            st.vertex_shader_mtime < d) ∨
         (∃ d, stat_mtime fsys ("fragment_shader.glsl") = some d ∧
            st.fragment_shader_mtime < d) ∨
         (∃ d, stat_mtime fsys ("vertex_shader_quad.glsl") = some d ∧
            st.quad_vertex_shader_mtime < d) ∨
         (∃ d, stat_mtime fsys ("fragment_shader_raytrace.glsl") = some d ∧
            st.raytrace_shader_mtime < d))) := by
  refine ⟨?_, ?_, ?_, ?_⟩
  · intro cur prev h
    unfold shader_check_due at h
    linarith
  · intro fsys name h
    unfold stat_mtime
    rw [h]
  · intro fsys name prev h
    unfold check_shader_changed
    rw [h]
  · intro fsys st
    unfold reload_shaders_if_changed
    rw [Bool.or_eq_true, Bool.or_eq_true, Bool.or_eq_true,
      check_shader_changed_iff, check_shader_changed_iff,
      check_shader_changed_iff, check_shader_changed_iff]
    rw [or_assoc, or_assoc]

/-- C7 witness: with the previous check at time 0 and the clock at 1 the
gate fires, and indeed at least half a second has elapsed. -/
theorem claim_C7_watcher_behaviour_witness :
    shader_check_due 1 0 ∧ (1 : ℚ) / 2 ≤ 1 - 0 :=
  ⟨by norm_num [shader_check_due],
    claim_C7_watcher_behaviour.1 1 0 (by norm_num [shader_check_due])⟩

/-- C7 counterexample to the claim as stated: the on-disk mtime 50 of
fragment_shader.glsl differs from the stored mtime 100, yet no reload is
triggered, because the source compares with strictly-greater rather than
disequality. -/
theorem claim_C7_counterexample :
    stat_mtime fs0 ("fragment_shader.glsl") = some 50 ∧
    watch0.fragment_shader_mtime = 100 ∧ ((50 : Int) = 100 → False) ∧
    reload_shaders_if_changed fs0 watch0 = false := by decide

/-- C2: generate_particles emits exactly floor (a + 50 Δt) particles and the
accumulator becomes (a + 50 Δt) minus that integer; with Δt ≥ 0 and
a ∈ [0, 1) on entry the accumulator is again in [0, 1) afterwards. -/
theorem claim_C2_emitter_contract (Δt t : ℝ) (st : EmitState ℝ)
    (ha0 : 0 ≤ st.accumulator) (ha1 : st.accumulator < 1) (hdt : 0 ≤ Δt) :
    ((((generate_particles exp2R Δt t st).2).length : ℤ)
        = ⌊st.accumulator + 50 * Δt⌋) ∧
    (generate_particles exp2R Δt t st).1.accumulator
        = st.accumulator + 50 * Δt - (⌊st.accumulator + 50 * Δt⌋ : ℝ) ∧
    0 ≤ (generate_particles exp2R Δt t st).1.accumulator ∧
    (generate_particles exp2R Δt t st).1.accumulator < 1 := by
  have hpp : (particles_per_second : ℝ) = 50 := by norm_num [particles_per_second]
  have hnn : (0 : ℝ) ≤ st.accumulator + 50 * Δt := by
    have h50 : (0 : ℝ) ≤ 50 * Δt := by linarith
    linarith
  have hfl : 0 ≤ ⌊st.accumulator + 50 * Δt⌋ := Int.floor_nonneg.mpr hnn
  have hacc := generate_particles_acc exp2R Δt t st
  rw [hpp] at hacc
  refine ⟨?_, ?_, ?_, ?_⟩
  · rw [generate_particles_length, hpp, Int.toNat_of_nonneg hfl]
  · rw [hacc]
    exact (Int.self_sub_floor _).symm
  · rw [hacc]
    exact Int.fract_nonneg _
  · rw [hacc]
    exact Int.fract_lt_one _

/-- C2 witness: from the startup state with Δt = 1/50 exactly one particle
is emitted and the accumulator returns to a value in [0, 1). -/
theorem claim_C2_emitter_contract_witness :
    0 ≤ (initState (α := ℝ)).accumulator ∧ (initState (α := ℝ)).accumulator < 1 ∧
    (0 : ℝ) ≤ 1 / 50 ∧
    (((((generate_particles exp2R (1 / 50) 0 (initState (α := ℝ))).2).length : ℤ)
        = ⌊(initState (α := ℝ)).accumulator + 50 * (1 / 50)⌋) ∧
      (generate_particles exp2R (1 / 50) 0 (initState (α := ℝ))).1.accumulator
        = (initState (α := ℝ)).accumulator + 50 * (1 / 50)
          - ((⌊(initState (α := ℝ)).accumulator + 50 * (1 / 50)⌋ : ℤ) : ℝ) ∧
      0 ≤ (generate_particles exp2R (1 / 50) 0 (initState (α := ℝ))).1.accumulator ∧
      (generate_particles exp2R (1 / 50) 0 (initState (α := ℝ))).1.accumulator < 1) := by
  have h0 : 0 ≤ (initState (α := ℝ)).accumulator := by norm_num [initState]
  have h1 : (initState (α := ℝ)).accumulator < 1 := by norm_num [initState]
  have h2 : (0 : ℝ) ≤ 1 / 50 := by norm_num
  exact ⟨h0, h1, h2, claim_C2_emitter_contract (1 / 50) 0 _ h0 h1 h2⟩

/-- Angle written at emission lies in [0, two_pi). -/
theorem make_particle_angle_bound {α : Type} [LinearOrderedField α] [FloorRing α]
    (e : α → α) (t : α) (s : Nat) (hs : s < 4294967296) :
    0 ≤ (make_particle e t s).1.angle ∧ (make_particle e t s).1.angle < two_pi := by
  have hs2 : xorshiftStep (xorshiftStep s) < 4294967296 :=
    xorshiftStep_lt _ (xorshiftStep_lt _ hs)
  obtain ⟨hlo, hhi⟩ := random_in_range_bounds 0 (two_pi (α := α)) _ hs2 two_pi_pos
  exact ⟨hlo, hhi⟩

/-- Size written at emission is a real power of two, hence positive. -/
theorem make_particle_size_pos (t : ℝ) (s : Nat) :
    0 < (make_particle exp2R t s).1.size :=
  Real.rpow_pos_of_pos (by norm_num) _

/-- C3: simulate_particles steps every slot; one step moves position by the
pre-update velocity, adds Δt times gravity -40 to velocity.y, and wraps the
angle with fmod; the concrete particle of the spec scenario steps with
Δt = 0.1 to position (1, 3), velocity (10, 26) and angle
fmod (0.1 π) (2 π) = 0.1 π. -/
theorem claim_C3_integrator_step :
    (∀ (Δt : ℝ) (store : Fin num_particles → ParticleData ℝ) (i : Fin num_particles),
      simulate_particles Δt store i = simStep Δt (store i)) ∧
    (∀ (Δt : ℝ) (p : ParticleData ℝ),
      simStep Δt p =
        ⟨(p.position.1 + Δt * p.velocity.1, p.position.2 + Δt * p.velocity.2),
         (p.velocity.1, p.velocity.2 + Δt * (-40)),
         fmod (p.angle + Δt * p.spin) two_pi, p.spin, p.size, p.creation_time⟩) ∧
    (∀ sz ct : ℝ,
      simStep 0.1 ⟨(0, 0), (10, 30), 0, Real.pi, sz, ct⟩ =
        ⟨(1, 3), (10, 26), fmod (0.1 * Real.pi) (2 * Real.pi), Real.pi, sz, ct⟩) ∧
    fmod (0.1 * Real.pi) (2 * Real.pi) = 0.1 * Real.pi := by
  have hpi0 : (0 : ℝ) ≤ 0.1 * Real.pi := by
    have := Real.pi_pos
    nlinarith
  have hpi1 : 0.1 * Real.pi < two_pi (α := ℝ) := by
    have := Real.pi_lt_d2
    norm_num [two_pi]
    nlinarith
  have hpi2 : 0.1 * Real.pi < 2 * Real.pi := by
    have := Real.pi_pos
    nlinarith
  have hfm1 : fmod (0.1 * Real.pi) (two_pi (α := ℝ)) = 0.1 * Real.pi :=
    fmod_eq_self _ _ hpi0 hpi1
  have hfm2 : fmod (0.1 * Real.pi) (2 * Real.pi) = 0.1 * Real.pi :=
    fmod_eq_self _ _ hpi0 hpi2
  refine ⟨fun Δt store i => rfl, fun Δt p => by simp only [simStep, gravity],
    fun sz ct => ?_, hfm2⟩
  have hang : fmod ((0 : ℝ) + 0.1 * Real.pi) (two_pi (α := ℝ))
      = fmod (0.1 * Real.pi) (2 * Real.pi) := by
    rw [zero_add, hfm1, hfm2]
  simp only [simStep, gravity]
  rw [hang]
  norm_num [ParticleData.mk.injEq, Prod.mk.injEq]

/-- C4 (amended): a zero-initialised slot never written by the Emitter has,
after k integrator steps with constant Δt, velocity (0, k Δt (-40)) and
position (0, -20 Δt ^ 2 k (k - 1)); the position is (0, 0) for k ≤ 1 only,
since position is updated with the pre-update velocity before gravity acts. -/
theorem claim_C4_never_emitted_slot (Δt : ℝ) (k : ℕ) :
    (simStep Δt)^[k] zeroParticle =
      ⟨(0, -20 * Δt ^ 2 * (k : ℝ) * ((k : ℝ) - 1)), (0, (k : ℝ) * Δt * (-40)),
        0, 0, 0, 0⟩ := by
  induction k with
  | zero =>
    norm_num [zeroParticle]
  | succ k ih =>
    rw [Function.iterate_succ_apply', ih]
    have hang : fmod ((0 : ℝ) + Δt * 0) (two_pi (α := ℝ)) = 0 := by
      rw [mul_zero, add_zero, fmod_zero_left]
    simp only [simStep, gravity]
    rw [hang]
    simp only [ParticleData.mk.injEq, Prod.mk.injEq, eq_self_iff_true, and_true, true_and]
    push_cast
    exact ⟨⟨by ring, by ring⟩, by ring⟩

/-- C4 counterexample: with Δt = 1, after two integrator steps the
never-emitted zero slot is no longer at the origin (its height is -40),
refuting position = (0, 0) for every k ≥ 1. -/
theorem claim_C4_counterexample :
    ((simStep (1 : ℝ))^[2] zeroParticle).position ≠ ((0 : ℝ), (0 : ℝ)) := by
  have e1 : (simStep (1 : ℝ))^[2] zeroParticle
      = simStep 1 (simStep 1 zeroParticle) := by
    rw [Function.iterate_succ_apply', Function.iterate_succ_apply',
      Function.iterate_zero_apply]
  intro h
  rw [e1] at h
  simp only [simStep, zeroParticle, gravity, Prod.mk.injEq] at h
  norm_num at h

/-- C5 (amended): each emitted particle consumes exactly FIVE draws, in the
order velocity.x, velocity.y, angle, spin, size exponent, with the stated
ranges (angle bounded by the source constant two_pi); position is fixed at
the origin and the timestamp is the current clock value, not a sixth draw. -/
theorem claim_C5_emission_draws (t : ℝ) (s : Nat) (hs : s < 4294967296) :
    (make_particle exp2R t s).1.position = (0, 0) ∧
    (make_particle exp2R t s).1.velocity.1 = (random_in_range (-12) 12 s).1 ∧
    (make_particle exp2R t s).1.velocity.2
      = (random_in_range 24 48 (xorshiftIter 1 s)).1 ∧
    (make_particle exp2R t s).1.angle
      = (random_in_range 0 two_pi (xorshiftIter 2 s)).1 ∧
    (make_particle exp2R t s).1.spin
      = (random_in_range (-5) 5 (xorshiftIter 3 s)).1 ∧
    (make_particle exp2R t s).1.size
      = exp2R ((random_in_range (-2) (1 / 2) (xorshiftIter 4 s)).1) ∧
    (make_particle exp2R t s).1.creation_time = t ∧
    (make_particle exp2R t s).2 = xorshiftIter 5 s ∧
    (-12 ≤ (make_particle exp2R t s).1.velocity.1 ∧
      (make_particle exp2R t s).1.velocity.1 < 12) ∧
    (24 ≤ (make_particle exp2R t s).1.velocity.2 ∧
      (make_particle exp2R t s).1.velocity.2 < 48) ∧
    (0 ≤ (make_particle exp2R t s).1.angle ∧
      (make_particle exp2R t s).1.angle < two_pi) ∧
    (-5 ≤ (make_particle exp2R t s).1.spin ∧
      (make_particle exp2R t s).1.spin < 5) ∧
    0 < (make_particle exp2R t s).1.size := by
  have h1 : xorshiftStep s < 4294967296 := xorshiftStep_lt s hs
  have h2 := xorshiftStep_lt _ h1
  have h3 := xorshiftStep_lt _ h2
  refine ⟨rfl, rfl, rfl, rfl, rfl, rfl, rfl, rfl, ?_, ?_, ?_, ?_,
    make_particle_size_pos t s⟩
  · exact random_in_range_bounds (-12) 12 s hs (by norm_num)
  · exact random_in_range_bounds 24 48 _ h1 (by norm_num)
  · exact random_in_range_bounds 0 (two_pi (α := ℝ)) _ h2 two_pi_pos
  · exact random_in_range_bounds (-5) 5 _ h3 (by norm_num)

/-- C5 witness at the real seed: the stated hypothesis holds and the rng
state after the first particle is the fifth iterate of the seed. -/
theorem claim_C5_emission_draws_witness :
    (0xf2eec0de : Nat) < 4294967296 ∧
    (make_particle exp2R 0 0xf2eec0de).1.creation_time = 0 ∧
    (make_particle exp2R 0 0xf2eec0de).2 = xorshiftIter 5 0xf2eec0de := by
  have h := claim_C5_emission_draws 0 0xf2eec0de (by norm_num)
  exact ⟨by norm_num, h.2.2.2.2.2.2.1, h.2.2.2.2.2.2.2.1⟩

/-- C5 counterexample to the claim as stated: creating the first particle
leaves the rng at the FIFTH iterate of the seed, not the sixth, because the
timestamp field is the clock value rather than a sixth draw. -/
theorem claim_C5_counterexample :
    (make_particle exp2R 42 0xf2eec0de).1.creation_time = 42 ∧
    xorshiftIter 5 0xf2eec0de ≠ xorshiftIter 6 0xf2eec0de ∧
    (make_particle exp2R 42 0xf2eec0de).2 ≠ xorshiftIter 6 0xf2eec0de := by
  have h5 : (make_particle exp2R 42 0xf2eec0de).2 = xorshiftIter 5 0xf2eec0de := rfl
  have hne : xorshiftIter 5 0xf2eec0de ≠ xorshiftIter 6 0xf2eec0de := by decide
  refine ⟨rfl, hne, ?_⟩
  intro h
  rw [h5] at h
  exact hne h

/-- C6: every particle record angle stays strictly inside
(-two_pi, two_pi), where two_pi is the source constant 6.283185308 (the
float rounding of 2 pi used by both the emission range and the fmod wrap):
it holds at startup, is preserved by emission, is enforced by every
integration step, and therefore holds after any run of frames. -/
theorem claim_C6_angle_bound :
    (∀ i, |((initState (α := ℝ)).store i).angle| < two_pi) ∧
    (∀ (Δt t : ℝ) (st : EmitState ℝ), st.rng < 4294967296 →
      (∀ i, |(st.store i).angle| < two_pi) →
      ((∀ i, |((generate_particles exp2R Δt t st).1.store i).angle| < two_pi) ∧
        (generate_particles exp2R Δt t st).1.rng < 4294967296)) ∧
    (∀ (Δt : ℝ) (store : Fin num_particles → ParticleData ℝ) (i : Fin num_particles),
      |(simulate_particles Δt store i).angle| < two_pi) ∧
    (∀ (ts : List ℝ) (t0 : ℝ) (i : Fin num_particles),
      |(((runFrames exp2R ts t0 (initState (α := ℝ))).1).store i).angle| < two_pi) := by
  have hmk : ∀ (t : ℝ) (s : Nat), s < 4294967296 →
      |(make_particle exp2R t s).1.angle| < two_pi := by
    intro t s hs
    obtain ⟨hlo, hhi⟩ := make_particle_angle_bound exp2R t s hs
    rw [abs_of_nonneg hlo]
    exact hhi
  have hinit : ∀ i, |((initState (α := ℝ)).store i).angle| < two_pi := by
    intro i
    show |(zeroParticle (α := ℝ)).angle| < two_pi
    norm_num [zeroParticle, two_pi]
  have hsim : ∀ (Δt : ℝ) (store : Fin num_particles → ParticleData ℝ)
      (i : Fin num_particles), |(simulate_particles Δt store i).angle| < two_pi := by
    intro Δt store i
    exact abs_fmod_lt _ _ two_pi_pos
  have hgen : ∀ (Δt t : ℝ) (st : EmitState ℝ), st.rng < 4294967296 →
      (∀ i, |(st.store i).angle| < two_pi) →
      ((∀ i, |((generate_particles exp2R Δt t st).1.store i).angle| < two_pi) ∧
        (generate_particles exp2R Δt t st).1.rng < 4294967296) := by
    intro Δt t st hrng hang
    exact ⟨generate_particles_store_inv exp2R Δt t (fun p => |p.angle| < two_pi)
        (fun s hs => hmk t s hs) st hrng hang,
      generate_particles_rng_lt exp2R Δt t st hrng⟩
  refine ⟨hinit, hgen, hsim, ?_⟩
  intro ts t0
  have hrun := runFrames_inv exp2R
    (fun st => st.rng < 4294967296 ∧ ∀ i, |(st.store i).angle| < two_pi)
    (fun Δt t st h => by
      obtain ⟨hr, ha⟩ := h
      obtain ⟨ha2, hr2⟩ := hgen Δt t st hr ha
      exact ⟨hr2, ha2⟩)
    (fun Δt st h => ⟨h.1, fun i => hsim Δt st.store i⟩)
    ts t0 (initState (α := ℝ)) ⟨by norm_num [initState], hinit⟩
  exact hrun.2

/-- C6 witness: the startup state satisfies the rng bound and angle bound,
and one emission from it keeps every stored angle strictly below two_pi. -/
theorem claim_C6_angle_bound_witness :
    (initState (α := ℝ)).rng < 4294967296 ∧
    (∀ i, |((initState (α := ℝ)).store i).angle| < two_pi) ∧
    (∀ i, |((generate_particles exp2R 1 0 (initState (α := ℝ))).1.store i).angle|
      < two_pi) := by
  have h1 : (initState (α := ℝ)).rng < 4294967296 := by norm_num [initState]
  exact ⟨h1, claim_C6_angle_bound.1,
    (claim_C6_angle_bound.2.1 1 0 _ h1 claim_C6_angle_bound.1).1⟩

/-- C8: two runs over the same timestep sequence, with the same start
clock, accumulator 0 and the seed 0xf2eec0de, produce identical emitted
particle records, whatever their stores and cursors hold. -/
theorem claim_C8_determinism (ts : List ℝ) (t0 : ℝ) (s1 s2 : EmitState ℝ)
    (h1a : s1.accumulator = 0) (h1r : s1.rng = 0xf2eec0de)
    (h2a : s2.accumulator = 0) (h2r : s2.rng = 0xf2eec0de) :
    (runFrames exp2R ts t0 s1).2 = (runFrames exp2R ts t0 s2).2 :=
  runFrames_log_eq exp2R ts t0 s1 s2 (h1a.trans h2a.symm) (h1r.trans h2r.symm)

/-- C8 witness: the startup state and a state with a different store and
cursor (but the same accumulator and seed) emit identical records over two
frames. -/
theorem claim_C8_determinism_witness :
    (initState (α := ℝ)).accumulator = 0 ∧ (initState (α := ℝ)).rng = 0xf2eec0de ∧
    altState.accumulator = 0 ∧ altState.rng = 0xf2eec0de ∧
    (runFrames exp2R [1, 1 / 2] 0 (initState (α := ℝ))).2
      = (runFrames exp2R [1, 1 / 2] 0 altState).2 :=
  ⟨rfl, rfl, rfl, rfl,
    claim_C8_determinism [1, 1 / 2] 0 (initState (α := ℝ)) altState rfl rfl rfl rfl⟩

/-- C9 (amended): never-emitted slots hold size exactly 0 (not positive);
every record the Emitter writes has size 2 ^ u > 0; hence along any run
from startup every emitted record has positive size and every stored slot
has nonnegative size. -/
theorem claim_C9_size_field :
    (∀ i, ((initState (α := ℝ)).store i).size = 0) ∧
    (∀ (t : ℝ) (s : Nat), 0 < (make_particle exp2R t s).1.size) ∧
    (∀ (Δt t : ℝ) (st : EmitState ℝ) (p : ParticleData ℝ),
      p ∈ (generate_particles exp2R Δt t st).2 → 0 < p.size) ∧
    (∀ (ts : List ℝ) (t0 : ℝ) (p : ParticleData ℝ),
      p ∈ (runFrames exp2R ts t0 (initState (α := ℝ))).2 → 0 < p.size) ∧
    (∀ (ts : List ℝ) (t0 : ℝ) (i : Fin num_particles),
      0 ≤ (((runFrames exp2R ts t0 (initState (α := ℝ))).1).store i).size) := by
  refine ⟨fun i => rfl, make_particle_size_pos, ?_, ?_, ?_⟩
  · intro Δt t st p hp
    obtain ⟨s, hs⟩ := generate_particles_mem exp2R Δt t st p hp
    rw [hs]
    exact make_particle_size_pos t s
  · intro ts t0 p hp
    obtain ⟨t1, s, hs⟩ := runFrames_mem exp2R ts t0 _ p hp
    rw [hs]
    exact make_particle_size_pos t1 s
  · intro ts t0
    exact runFrames_inv exp2R (fun st => ∀ i, 0 ≤ (st.store i).size)
      (fun Δt t st h => generate_particles_store_inv0 exp2R Δt t
        (fun p => 0 ≤ p.size) (fun s => (make_particle_size_pos t s).le) st h)
      (fun Δt st h i => h i)
      ts t0 (initState (α := ℝ)) (fun i => le_of_eq rfl)

/-- C9 counterexample to the claim as stated: at startup (and hence at the
first drawn frame) slot 0 is zero-initialised, so its size is 0 and not
strictly positive. -/
theorem claim_C9_counterexample :
    ((initState (α := ℝ)).store ⟨0, by norm_num [num_particles]⟩).size = 0 ∧
    ¬ (0 < ((initState (α := ℝ)).store ⟨0, by norm_num [num_particles]⟩).size) := by
  constructor
  · rfl
  · intro h
    have h0 : ((initState (α := ℝ)).store ⟨0, by norm_num [num_particles]⟩).size = 0 := rfl
    rw [h0] at h
    exact lt_irrefl 0 h

/-- C9 witness: the single particle emitted over one frame of length 1/50
from startup is in the emission log and has positive size. -/
theorem claim_C9_size_field_witness :
    (make_particle exp2R 7 0xf2eec0de).1
        ∈ (generate_particles exp2R (1 / 50) 7 (initState (α := ℝ))).2 ∧
    0 < (make_particle exp2R 7 0xf2eec0de).1.size := by
  have hc : (⌊(initState (α := ℝ)).accumulator
      + particles_per_second * (1 / 50 : ℝ)⌋).toNat = 1 := by
    norm_num [initState, particles_per_second]
  have hmem : (make_particle exp2R 7 0xf2eec0de).1
      ∈ (generate_particles exp2R (1 / 50) 7 (initState (α := ℝ))).2 := by
    rw [generate_particles_def, hc]
    exact List.mem_cons_self _ _
  exact ⟨hmem, claim_C9_size_field.2.2.1 (1 / 50) 7 _ _ hmem⟩
